import Mathlib

/-!
Verification development for the mcp-auth-demo repository.

The Python sources are shallowly embedded: datetimes become naturals
(seconds), network calls become explicit environment records describing the
responses of the external services, and the mutable secret store becomes
explicit state passing.  Python truthiness of optional strings (None and ""
are falsy) is modelled by `pyTruthy`.
-/

/-- Python truthiness of an optional string: None and "" are falsy. -/
def pyTruthy : Option String → Bool
  | some s => s != ""
  | none => false

/-- Python f-string rendering of an optional value: None prints as "None". -/
def pyFStr : Option String → String
  | some s => s
  | none => "None"

/-- Maximal groups of characters delimited by whitespace (with empty groups
at each delimiter, removed by `pySplit`). -/
def wsGroups : List Char → List (List Char)
  | [] => [[]]
  | c :: cs =>
    let rest := wsGroups cs
    if c.isWhitespace then [] :: rest
    else
      match rest with
      | g :: gs => (c :: g) :: gs
      | [] => [[c]]

/-- Python str.split with no argument: split on runs of whitespace, dropping
empty pieces. -/
def pySplit (s : String) : List String :=
  ((wsGroups s.data).map (fun g => String.mk g)).filter (fun t => t != "")

/-- Python str.lower on ASCII strings. -/
def pyLower (s : String) : String := ⟨s.data.map Char.toLower⟩

/- ===== auth.py : get_user_github_token ===== -/

/-- Environment describing the responses of the external secret backends seen
by get_user_github_token in src/auth.py: the Supabase vault RPC and the
GITHUB_PAT environment variable. -/
structure SecretsEnv where
  vault_raises : Bool := false
  vault_status : Nat := 200
  vault_data : Option String := none
  github_pat_env : Option String := none
deriving DecidableEq, Repr

/-- Outcome of the vault branch of get_user_github_token (src/auth.py lines
47-66): on a 200 response with truthy JSON data the secret is returned,
otherwise (non-200, falsy data, or an exception) nothing. -/
def vault_read_secret (env : SecretsEnv) : Option String :=
  if env.vault_raises then none
  else if env.vault_status = 200 then
    match env.vault_data with
    | some d => if d != "" then some d else none
    | none => none
  else none

/-- Embedding of get_user_github_token (src/auth.py lines 37-74): try the
Supabase vault, then the GITHUB_PAT environment variable; return None when
neither yields a truthy value.  The user id only names the vault secret. -/
def get_user_github_token (env : SecretsEnv) (user_id : String) : Option String :=
  match vault_read_secret env with
  | some d => some d
  | none =>
    match env.github_pat_env with
    | some t => if t != "" then some t else none
    | none => none

/-- First truthy value of a list of optional strings. -/
def first_nonempty : List (Option String) → Option String
  | [] => none
  | o :: rest =>
    match o with
    | some s => if s != "" then some s else first_nonempty rest
    | none => first_nonempty rest

/-- Modelled from the spec: "try backing stores in a fixed priority order
(vault → cloud secrets manager → environment variable); return the first
non-empty token found".  The cloud-secrets-manager store is absent from the
implementation in src/auth.py; this definition follows the words of the spec
so the two can be compared. -/
def spec_resolver_chain (vault cloud env_var : Option String) : Option String :=
  first_nonempty [vault, cloud, env_var]

/- ===== secret_management.py : UserTokens ===== -/

/-- The UserTokens dataclass (src/secret_management.py lines 21-27).
Datetimes are modelled as naturals (seconds). -/
structure UserTokens where
  github_token : Option String := none
  expiry_time : Option Nat := none
  refresh_token : Option String := none
deriving DecidableEq, Repr

/-- Decimal digit to its character, as used when rendering a datetime. -/
def decimal_digit_char (d : Nat) : Char := Char.ofNat (48 + d)

/-- Character back to its decimal digit. -/
def decimal_char_digit (c : Char) : Nat := c.toNat - 48

/-- Model of datetime.isoformat: an injective textual rendering of the
instant, here the decimal numeral of the seconds value (never empty). -/
def datetime_isoformat (t : Nat) : String :=
  ⟨((if t = 0 then [0] else Nat.digits 10 t).map decimal_digit_char).reverse⟩

/-- Model of datetime.fromisoformat, the exact inverse of the rendering. -/
def datetime_fromisoformat (s : String) : Nat :=
  Nat.ofDigits 10 (s.data.reverse.map decimal_char_digit)

/-- The dictionary produced by UserTokens.to_dict: the expiry is stored as
its isoformat string. -/
structure TokensDict where
  github_token : Option String
  expiry_time : Option String
  refresh_token : Option String
deriving DecidableEq, Repr

/-- Embedding of UserTokens.to_dict (src/secret_management.py lines 29-35). -/
def UserTokens.to_dict (t : UserTokens) : TokensDict :=
  { github_token := t.github_token
    expiry_time := t.expiry_time.map datetime_isoformat
    refresh_token := t.refresh_token }

/-- Embedding of UserTokens.from_dict (src/secret_management.py lines 37-47):
the expiry string is parsed only when truthy (Python: `if expiry_str`). -/
def UserTokens.from_dict (d : TokensDict) : UserTokens :=
  { github_token := d.github_token
    expiry_time :=
      match d.expiry_time with
      | some s => if s != "" then some (datetime_fromisoformat s) else none
      | none => none
    refresh_token := d.refresh_token }

/- ===== secret_management.py : SecretStore ===== -/

/-- The mutable part of a SecretStore: the mock storage dictionary
(src/secret_management.py line 74). -/
structure SecretStoreState where
  mock_storage : List (String × UserTokens) := []
deriving DecidableEq, Repr

/-- Environment describing the responses of the production secret-store HTTP
API: the GET of the stored tokens (some = 200 with a body; none = 404, another
status, or an exception) and whether the PUT storing tokens succeeds. -/
structure SecretNetEnv where
  get_tokens_response : String → Option UserTokens := fun _ => none
  put_ok : Bool := false

/-- Dictionary assignment on the mock storage. -/
def SecretStoreState.insert (st : SecretStoreState) (user_id : String)
    (tokens : UserTokens) : SecretStoreState :=
  ⟨(user_id, tokens) :: st.mock_storage.filter (fun p => p.1 != user_id)⟩

/-- Embedding of SecretStore.get_user_tokens (src/secret_management.py lines
109-144): the mock storage is consulted first; otherwise the production API
is queried, every failure outcome collapsing to None. -/
def SecretStore.get_user_tokens (st : SecretStoreState) (net : SecretNetEnv)
    (user_id : String) : Option UserTokens :=
  match st.mock_storage.lookup user_id with
  | some tokens => some tokens
  | none => net.get_tokens_response user_id

/-- Embedding of SecretStore.store_user_tokens (src/secret_management.py
lines 146-185): the mock storage is updated first, then the production PUT
decides the returned boolean (an exception or bad status yields False with
the mock update already applied). -/
def SecretStore.store_user_tokens (st : SecretStoreState) (net : SecretNetEnv)
    (user_id : String) (tokens : UserTokens) : Bool × SecretStoreState :=
  (net.put_ok, st.insert user_id tokens)

/-- Embedding of SecretStore.refresh_user_tokens (src/secret_management.py
lines 187-219).  `now` is the value of datetime.utcnow() in seconds.  The
new tokens expire 24 hours after now; they are returned only when the store
reports success, otherwise None is returned. -/
def SecretStore.refresh_user_tokens (st : SecretStoreState) (net : SecretNetEnv)
    (user_id : String) (now : Nat) : Option UserTokens × SecretStoreState :=
  match SecretStore.get_user_tokens st net user_id with
  | none => (none, st)
  | some current_tokens =>
    if pyTruthy current_tokens.refresh_token then
      let new_tokens : UserTokens :=
        { github_token := some ("ghp_refreshed_" ++ user_id ++ "_" ++ toString now)
          expiry_time := some (now + 24 * 3600)
          refresh_token := some ("refresh_new_" ++ user_id ++ "_" ++ toString now) }
      match SecretStore.store_user_tokens st net user_id new_tokens with
      | (true, st1) => (some new_tokens, st1)
      | (false, st1) => (none, st1)
    else (none, st)

/- ===== auth_handler.py ===== -/

/-- The identity record extracted from a 200 whoami response
(src/auth_handler.py lines 111-118); a 200 body carries the user id. -/
structure LangSmithUserInfo where
  user_id : String
  email : Option String := none
  org_id : Option String := none
  workspace_id : Option String := none
deriving DecidableEq, Repr

/-- Environment describing the responses of the LangSmith identity service:
the validity check performed by is_valid_langsmith_key (network errors and
non-200 responses both yield false) and the outcome of
get_user_info_from_langsmith (None on any failure). -/
structure LangSmithEnv where
  key_valid : Bool := false
  whoami : Option LangSmithUserInfo := none
deriving Repr

/-- The HTTPException raised by the authentication handlers. -/
structure HTTPException where
  status_code : Nat
  detail : String
deriving DecidableEq, Repr

/-- How a call of authenticate in src/auth_handler.py terminates abnormally:
either a deliberate HTTPException, or an uncaught Python AttributeError. -/
inductive AuthFailure where
  | http (e : HTTPException)
  | attributeError (attr : String)
deriving DecidableEq, Repr

/-- The user object authenticate intends to return (src/auth_handler.py
lines 184-200). -/
structure AuthHandlerUser where
  identity : String
  api_key : String
  email : Option String
  org_id : Option String
  workspace_id : Option String
  github_token : Option String
  jira_token : Option String
  slack_token : Option String
  confluence_token : Option String
  token_expiry : Option String
deriving DecidableEq, Repr

/-- Embedding of fetch_user_tokens (src/auth_handler.py lines 59-87): when
the whoami lookup fails the result is None, otherwise the secret store is
consulted for the user id. -/
def fetch_user_tokens (st : SecretStoreState) (net : SecretNetEnv)
    (env : LangSmithEnv) : Option UserTokens :=
  match env.whoami with
  | none => none
  | some info => SecretStore.get_user_tokens st net info.user_id

/-- Embedding of authenticate (src/auth_handler.py lines 128-203).  A missing
or empty x-api-key header and an invalid key each raise a 401
HTTPException.  On the success path the user-object dictionary literal
evaluates `user_tokens.jira_token` (line 193); the UserTokens dataclass in
src/secret_management.py defines only github_token, expiry_time and
refresh_token, so that access raises AttributeError before any user object
can be produced. -/
def authenticate (st : SecretStoreState) (net : SecretNetEnv)
    (env : LangSmithEnv) (headers : List (String × String)) :
    Except AuthFailure AuthHandlerUser :=
  let api_key := headers.lookup ("x-api-key")
  if !(pyTruthy api_key) then
    .error (.http ⟨401, "Missing x-api-key header"⟩)
  else if !env.key_valid then
    .error (.http ⟨401, "Invalid API key"⟩)
  else
    match env.whoami with
    | none => .error (.http ⟨401, "Unable to retrieve user information"⟩)
    | some _info =>
      let _user_tokens := (fetch_user_tokens st net env).getD {}
      .error (.attributeError ("jira_token"))

/-- Embedding of validate_user_permissions (src/auth_handler.py lines
254-281), acting on the user objects consumed by mcp_integration.py. -/
structure AuthUser where
  identity : Option String := none
  org_id : Option String := none
  email : Option String := none
  github_token : Option String := none
  jira_token : Option String := none
  slack_token : Option String := none
  confluence_token : Option String := none
deriving DecidableEq, Repr

/-- The service_token_map dictionary (src/auth_handler.py lines 265-270). -/
def service_token_map : List (String × String) :=
  [("github", "github_token"), ("jira", "jira_token"),
   ("slack", "slack_token"), ("confluence", "confluence_token")]

/-- user.get(token_field) on the embedded user dictionary. -/
def AuthUser.getField (u : AuthUser) (field : String) : Option String :=
  if field = "github_token" then u.github_token
  else if field = "jira_token" then u.jira_token
  else if field = "slack_token" then u.slack_token
  else if field = "confluence_token" then u.confluence_token
  else none

/-- Embedding of validate_user_permissions: unknown services map to False,
known services to the truthiness of the corresponding token field. -/
def validate_user_permissions (user : AuthUser) (required_service : String) : Bool :=
  match service_token_map.lookup required_service with
  | none => false
  | some field => pyTruthy (user.getField field)

/-- Embedding of refresh_user_tokens_if_needed (src/auth_handler.py lines
222-251): tokens expiring within ten minutes of now trigger a refresh; a
failed refresh falls back to the current tokens. -/
def refresh_user_tokens_if_needed (st : SecretStoreState) (net : SecretNetEnv)
    (user_identity : String) (now : Nat) : Option UserTokens × SecretStoreState :=
  match SecretStore.get_user_tokens st net user_identity with
  | none => (none, st)
  | some current_tokens =>
    match current_tokens.expiry_time with
    | none => (some current_tokens, st)
    | some expiry =>
      if expiry < now + 10 * 60 then
        match SecretStore.refresh_user_tokens st net user_identity now with
        | (some refreshed_tokens, st1) => (some refreshed_tokens, st1)
        | (none, st1) => (some current_tokens, st1)
      else (some current_tokens, st)

/- ===== auth.py : get_current_user ===== -/

/-- Environment describing the responses of the Supabase identity service
seen by get_current_user: whether httpx raised, the status of GET
/auth/v1/user, the body of a 200 response, and the secret backends. -/
structure SupabaseEnv where
  http_error : Bool := false
  http_error_msg : String := ""
  auth_status : Nat := 200
  user_id : String := ""
  user_email : Option String := none
  user_role : Option String := none
  secrets : SecretsEnv := {}
deriving DecidableEq, Repr

/-- The MinimalUserDict returned by get_current_user (src/auth.py lines
130-136). -/
structure MinimalUserDict where
  identity : String
  is_authenticated : Bool
  email : Option String
  role : String
  github_token : Option String
deriving DecidableEq, Repr

/-- Embedding of get_current_user (src/auth.py lines 78-136): a missing
header, a header that does not split into exactly a bearer scheme and a
token, an httpx error, and a non-200 response each raise a 401
HTTPException; otherwise the identity record is returned with the resolved
GitHub token. -/
def get_current_user (env : SupabaseEnv) (authorization : Option String) :
    Except HTTPException MinimalUserDict :=
  match authorization with
  | none => .error ⟨401, "Missing authorization header"⟩
  | some auth_header =>
    match pySplit auth_header with
    | [scheme, _token] =>
      if pyLower scheme = "bearer" then
        if env.http_error then
          .error ⟨401, "Token validation failed: " ++ env.http_error_msg⟩
        else if env.auth_status ≠ 200 then
          .error ⟨401, "Invalid token"⟩
        else
          .ok { identity := env.user_id
                is_authenticated := true
                email := env.user_email
                role := env.user_role.getD ("user")
                github_token := get_user_github_token env.secrets env.user_id }
      else .error ⟨401, "Invalid authorization header format"⟩
    | _ => .error ⟨401, "Invalid authorization header format"⟩

/-- A credential that the Supabase validator rejects: absent, malformed, or
refused by the identity service. -/
def supabase_invalid_credential (env : SupabaseEnv) (authorization : Option String) : Prop :=
  authorization = none
  ∨ (∃ s, authorization = some s ∧
      (match pySplit s with
       | [scheme, _token] => pyLower scheme ≠ "bearer"
       | _ => True))
  ∨ env.http_error = true
  ∨ env.auth_status ≠ 200

/- ===== mcp_integration.py : AuthenticatedMCPClient ===== -/

/-- Lexicographic comparison of character lists by code point, the order
Python sorted uses on strings. -/
def charListLe : List Char → List Char → Bool
  | [], _ => true
  | _ :: _, [] => false
  | a :: as, b :: bs =>
    if a.toNat < b.toNat then true
    else if b.toNat < a.toNat then false
    else charListLe as bs

/-- Python string comparison. -/
def pyStrLe (a b : String) : Bool := charListLe a.data b.data

/-- The same comparison as a relation, for the sorting lemmas. -/
def pyStrLeProp (a b : String) : Prop := pyStrLe a b = true

instance : DecidableRel pyStrLeProp :=
  fun a b => instDecidableEqBool (pyStrLe a b) true

/-- Python sorted on a list of strings. -/
def pySorted (l : List String) : List String := List.insertionSort pyStrLeProp l

/-- One server configuration from _get_server_config (src/mcp_integration.py
lines 41-100): transport, url and headers for the http transports, command
and environment for stdio. -/
structure ServerConfig where
  transport : String
  url : String := ""
  headers : List (String × String) := []
  command : List String := []
  env : List (String × String) := []
deriving DecidableEq, Repr

/-- Embedding of AuthenticatedMCPClient._get_server_config: the five known
services map to their configurations, every other name to the falsy empty
dictionary (None here). -/
def AuthenticatedMCPClient.get_server_config (user : AuthUser) (service : String) :
    Option ServerConfig :=
  if service = "github" then
    some { transport := "streamable_http"
           url := "https://github-mcp-server.example.com/mcp"
           headers := [("Authorization", "Bearer " ++ pyFStr user.github_token),
                       ("User-Agent", "LangGraph-MCP-Client/1.0"),
                       ("X-User-ID", user.identity.getD ("unknown"))] }
  else if service = "jira" then
    some { transport := "streamable_http"
           url := "https://jira-mcp-server.example.com/mcp"
           headers := [("Authorization", "Bearer " ++ pyFStr user.jira_token),
                       ("Content-Type", "application/json"),
                       ("X-User-ID", user.identity.getD ("unknown")),
                       ("X-Org-ID", user.org_id.getD ("unknown"))] }
  else if service = "slack" then
    some { transport := "streamable_http"
           url := "https://slack-mcp-server.example.com/mcp"
           headers := [("Authorization", "Bearer " ++ pyFStr user.slack_token),
                       ("X-User-ID", user.identity.getD ("unknown"))] }
  else if service = "confluence" then
    some { transport := "streamable_http"
           url := "https://confluence-mcp-server.example.com/mcp"
           headers := [("Authorization", "Bearer " ++ pyFStr user.confluence_token),
                       ("X-User-ID", user.identity.getD ("unknown")),
                       ("X-Org-ID", user.org_id.getD ("unknown"))] }
  else if service = "local_filesystem" then
    some { transport := "stdio"
           command := ["python", "-m", "filesystem_mcp_server"]
           env := [("USER_ID", user.identity.getD ("unknown")),
                   ("ORG_ID", user.org_id.getD ("unknown"))] }
  else none

/-- A constructed MultiServerMCPClient; `cid` models Python object identity
(the allocation counter lives in `ClientState`). -/
structure MultiServerMCPClient where
  cid : Nat
  servers : List (String × ServerConfig)
deriving DecidableEq, Repr

/-- The mutable state of an AuthenticatedMCPClient: the self.clients cache
plus the allocation counter backing object identities. -/
structure ClientState where
  clients : List (String × MultiServerMCPClient) := []
  next_cid : Nat := 0
deriving DecidableEq, Repr

/-- The ValueError raised by get_client, with the data interpolated into the
message. -/
inductive GetClientError where
  | missing_access (services : List String)
  | no_valid_configs (services : List String)
deriving DecidableEq, Repr

/-- The cache key of get_client (src/mcp_integration.py line 141):
"|".join(sorted(services)). -/
def cache_key (services : List String) : String :=
  String.intercalate ("|") (pySorted services)

/-- Embedding of AuthenticatedMCPClient.get_client (src/mcp_integration.py
lines 102-146): collect the services failing the permission gate and raise a
missing-access error when any exist; build the per-service configurations,
raising when none result; then serve from the cache keyed by the sorted
services, creating and caching a fresh client on a miss. -/
def AuthenticatedMCPClient.get_client (cs : ClientState) (user : AuthUser)
    (services : List String) :
    Except GetClientError (MultiServerMCPClient × ClientState) :=
  let missing_services := services.filter (fun s => !(validate_user_permissions user s))
  if missing_services ≠ [] then
    .error (.missing_access missing_services)
  else
    let servers := services.filterMap
      (fun s => (AuthenticatedMCPClient.get_server_config user s).map (fun cfg => (s, cfg)))
    if servers = [] then
      .error (.no_valid_configs services)
    else
      match cs.clients.lookup (cache_key services) with
      | some client => .ok (client, cs)
      | none =>
        let client : MultiServerMCPClient := ⟨cs.next_cid, servers⟩
        .ok (client, { clients := (cache_key services, client) :: cs.clients
                       next_cid := cs.next_cid + 1 })

/-- Embedding of AuthenticatedMCPClient.list_available_services
(src/mcp_integration.py lines 204-219). -/
def AuthenticatedMCPClient.list_available_services (user : AuthUser) : List String :=
  ["github", "jira", "slack", "confluence"].filter
    (fun service => validate_user_permissions user service)

/- ===== Helper lemmas ===== -/

theorem char_toNat_inj {a b : Char} (h : a.toNat = b.toNat) : a = b := by
  have h2 := congrArg Char.ofNat h
  rwa [Char.ofNat_toNat, Char.ofNat_toNat] at h2

theorem charListLe_total : ∀ as bs : List Char,
    charListLe as bs = true ∨ charListLe bs as = true := by
  intro as
  induction as with
  | nil => intro bs; left; rfl
  | cons a as ih =>
    intro bs
    cases bs with
    | nil => right; rfl
    | cons b bs =>
      by_cases h1 : a.toNat < b.toNat
      · left; simp [charListLe, h1]
      · by_cases h2 : b.toNat < a.toNat
        · right; simp [charListLe, h2]
        · rcases ih bs with ihl | ihr
          · left; simp [charListLe, h1, h2, ihl]
          · right; simp [charListLe, h1, h2, ihr]

theorem charListLe_trans : ∀ as bs cs : List Char, charListLe as bs = true →
    charListLe bs cs = true → charListLe as cs = true := by
  intro as
  induction as with
  | nil => intro bs cs h1 h2; rfl
  | cons a as ih =>
    intro bs cs h1 h2
    cases bs with
    | nil => simp [charListLe] at h1
    | cons b bs =>
      cases cs with
      | nil => simp [charListLe] at h2
      | cons c cs =>
        simp only [charListLe] at h1 h2 ⊢
        by_cases hab : a.toNat < b.toNat <;> by_cases hba : b.toNat < a.toNat <;>
          by_cases hbc : b.toNat < c.toNat <;> by_cases hcb : c.toNat < b.toNat <;>
          simp [hab, hba, hbc, hcb] at h1 h2 ⊢ <;>
          first
            | omega
            | (exact Or.inl (by omega))
            | (exact Or.inr (And.intro (by omega) (ih bs cs h1 h2)))

theorem charListLe_antisymm : ∀ as bs : List Char, charListLe as bs = true →
    charListLe bs as = true → as = bs := by
  intro as
  induction as with
  | nil =>
    intro bs h1 h2
    cases bs with
    | nil => rfl
    | cons b bs => simp [charListLe] at h2
  | cons a as ih =>
    intro bs h1 h2
    cases bs with
    | nil => simp [charListLe] at h1
    | cons b bs =>
      simp only [charListLe] at h1 h2
      by_cases hab : a.toNat < b.toNat
      · rw [if_neg (by omega), if_pos hab] at h2; simp at h2
      · by_cases hba : b.toNat < a.toNat
        · rw [if_neg hab, if_pos hba] at h1; simp at h1
        · rw [if_neg hab, if_neg hba] at h1
          rw [if_neg hba, if_neg hab] at h2
          have hc : a = b := char_toNat_inj (by omega)
          rw [hc, ih bs h1 h2]

theorem pySorted_perm_eq {l1 l2 : List String} (h : l1.Perm l2) :
    pySorted l1 = pySorted l2 := by
  haveI : IsTotal String pyStrLeProp := ⟨fun a b => charListLe_total a.data b.data⟩
  haveI : IsTrans String pyStrLeProp := ⟨fun a b c => charListLe_trans a.data b.data c.data⟩
  haveI : IsAntisymm String pyStrLeProp :=
    ⟨fun a b h1 h2 => String.ext (charListLe_antisymm a.data b.data h1 h2)⟩
  exact List.eq_of_perm_of_sorted
    ((List.perm_insertionSort _ l1).trans (h.trans (List.perm_insertionSort _ l2).symm))
    (List.sorted_insertionSort _ l1) (List.sorted_insertionSort _ l2)

theorem datetime_isoformat_ne_empty (n : Nat) : datetime_isoformat n ≠ "" := by
  intro h
  have hd : ((if n = 0 then [0] else Nat.digits 10 n).map decimal_digit_char).reverse = [] :=
    congrArg String.data h
  rw [List.reverse_eq_nil_iff, List.map_eq_nil_iff] at hd
  by_cases hn : n = 0
  · rw [if_pos hn] at hd; cases hd
  · rw [if_neg hn] at hd
    exact hn (Nat.digits_eq_nil_iff_eq_zero.mp hd)

theorem decimal_digit_roundtrip {d : Nat} (h : d < 10) :
    decimal_char_digit (decimal_digit_char d) = d := by
  unfold decimal_char_digit decimal_digit_char
  interval_cases d <;> decide

theorem datetime_fromisoformat_isoformat (n : Nat) :
    datetime_fromisoformat (datetime_isoformat n) = n := by
  unfold datetime_fromisoformat datetime_isoformat
  have hdata : (String.mk (((if n = 0 then [0] else Nat.digits 10 n).map decimal_digit_char).reverse)).data
      = ((if n = 0 then [0] else Nat.digits 10 n).map decimal_digit_char).reverse := rfl
  rw [hdata, List.reverse_reverse, List.map_map]
  have hmap : ((if n = 0 then [0] else Nat.digits 10 n).map
      (decimal_char_digit ∘ decimal_digit_char)) = (if n = 0 then [0] else Nat.digits 10 n) := by
    have hpt : ∀ d ∈ (if n = 0 then [0] else Nat.digits 10 n),
        (decimal_char_digit ∘ decimal_digit_char) d = d := by
      intro d hd
      have hlt : d < 10 := by
        by_cases hn : n = 0
        · rw [if_pos hn] at hd
          simp at hd
          omega
        · rw [if_neg hn] at hd
          exact Nat.digits_lt_base (by norm_num) hd
      exact decimal_digit_roundtrip hlt
    rw [List.map_congr_left hpt]
    exact List.map_id _
  rw [hmap]
  by_cases hn : n = 0
  · rw [if_pos hn, hn]; simp [Nat.ofDigits]
  · rw [if_neg hn]; exact Nat.ofDigits_digits 10 n

/- ===== Claim theorems ===== -/

/-- C9: serialization of user tokens round-trips: for every UserTokens value
t, including values where github_token, expiry_time, or refresh_token is
None, UserTokens.from_dict (UserTokens.to_dict t) equals t. -/
theorem C9_user_tokens_roundtrip (t : UserTokens) :
    UserTokens.from_dict (UserTokens.to_dict t) = t := by
  cases t with
  | mk g e r =>
    unfold UserTokens.to_dict UserTokens.from_dict
    cases e with
    | none => rfl
    | some n =>
      simp [bne_iff_ne, datetime_isoformat_ne_empty n, datetime_fromisoformat_isoformat n]

/-- C3 (amended): get_user_github_token tries the backing stores in the fixed
priority order vault → environment variable (the cloud-secrets-manager step
of the spec is not implemented) and returns the first non-empty token found;
when the vault yields a value, that value is returned even if the GITHUB_PAT
environment variable is also set. -/
theorem C3_resolver_priority (env : SecretsEnv) (uid : String) :
    (∀ v, vault_read_secret env = some v → get_user_github_token env uid = some v)
    ∧ (vault_read_secret env = none →
        get_user_github_token env uid = first_nonempty [env.github_pat_env]) := by
  constructor
  · intro v hv
    unfold get_user_github_token
    rw [hv]
  · intro hv
    unfold get_user_github_token
    rw [hv]
    cases env.github_pat_env <;> simp [first_nonempty]

/-- C3 witness: with the vault yielding a value and GITHUB_PAT also set, the
vault value is returned. -/
theorem C3_resolver_priority_witness :
    get_user_github_token
      { vault_data := some ("vault_tok"), github_pat_env := some ("env_tok") } "user_1"
      = some ("vault_tok") :=
  (C3_resolver_priority
    { vault_data := some ("vault_tok"), github_pat_env := some ("env_tok") } "user_1").1
    "vault_tok" (by decide)

/-- C3 counterexample: the claimed three-store chain
vault → cloud secrets manager → environment variable is not what the code
implements.  In a state where the vault has no secret, a cloud secrets
manager holds cloud_tok, and GITHUB_PAT holds env_tok, the claimed chain
returns cloud_tok while get_user_github_token (whose behaviour does not
consult any cloud secrets manager) returns env_tok. -/
theorem C3_counterexample :
    get_user_github_token { vault_status := 404, github_pat_env := some ("env_tok") } "user_1"
      = some ("env_tok")
    ∧ spec_resolver_chain none (some ("cloud_tok")) (some ("env_tok")) = some ("cloud_tok")
    ∧ get_user_github_token { vault_status := 404, github_pat_env := some ("env_tok") } "user_1"
      ≠ spec_resolver_chain none (some ("cloud_tok")) (some ("env_tok")) := by
  refine ⟨rfl, rfl, ?_⟩
  decide

/-- C10: when the stored tokens carry no expiry timestamp, or no tokens are
stored at all, refresh_user_tokens_if_needed leaves the secret store
unchanged and returns exactly what SecretStore.get_user_tokens retrieved. -/
theorem C10_no_expiry_no_refresh (st : SecretStoreState) (net : SecretNetEnv)
    (uid : String) (now : Nat)
    (h : Option.bind (SecretStore.get_user_tokens st net uid) UserTokens.expiry_time = none) :
    refresh_user_tokens_if_needed st net uid now = (SecretStore.get_user_tokens st net uid, st) := by
  unfold refresh_user_tokens_if_needed
  cases hg : SecretStore.get_user_tokens st net uid with
  | none => rfl
  | some cur =>
    rw [hg] at h
    simp only [Option.bind] at h
    simp [h]

/-- C10 witness: an empty store is left unchanged and the absent value is
returned as retrieved. -/
theorem C10_no_expiry_no_refresh_witness :
    refresh_user_tokens_if_needed {} {} "user_1" 5 =
      (SecretStore.get_user_tokens {} {} "user_1", {}) :=
  C10_no_expiry_no_refresh {} {} "user_1" 5 (by decide)

/-- C4: when the stored tokens expire within the fixed ten-minute lead window
of now, refresh_user_tokens_if_needed consults the refresh path; if the
refresh fails it returns the still-valid old tokens to the caller, and if it
succeeds it returns the refreshed tokens. -/
theorem C4_refresh_failure_returns_old (st : SecretStoreState) (net : SecretNetEnv)
    (uid : String) (now : Nat) (cur : UserTokens) (e : Nat)
    (hget : SecretStore.get_user_tokens st net uid = some cur)
    (hexp : cur.expiry_time = some e) (hwin : e < now + 10 * 60) :
    ((SecretStore.refresh_user_tokens st net uid now).1 = none →
      (refresh_user_tokens_if_needed st net uid now).1 = some cur)
    ∧ (∀ r, (SecretStore.refresh_user_tokens st net uid now).1 = some r →
      (refresh_user_tokens_if_needed st net uid now).1 = some r) := by
  unfold refresh_user_tokens_if_needed
  rw [hget]
  constructor
  · intro hfail
    rcases hres : SecretStore.refresh_user_tokens st net uid now with ⟨o, st1⟩
    rw [hres] at hfail
    simp only at hfail
    subst hfail
    simp [hexp, hwin, hres]
  · intro r hok
    rcases hres : SecretStore.refresh_user_tokens st net uid now with ⟨o, st1⟩
    rw [hres] at hok
    simp only at hok
    subst hok
    simp [hexp, hwin, hres]

/-- C4 witness: a user whose stored tokens expire inside the window and whose
store PUT fails gets the old tokens back. -/
theorem C4_refresh_failure_returns_old_witness :
    (refresh_user_tokens_if_needed
      ⟨[("u1", { github_token := some ("g"), expiry_time := some 100,
                 refresh_token := some ("r") })]⟩ {} "u1" 0).1 =
      some { github_token := some ("g"), expiry_time := some 100,
             refresh_token := some ("r") } :=
  (C4_refresh_failure_returns_old
    ⟨[("u1", { github_token := some ("g"), expiry_time := some 100,
               refresh_token := some ("r") })]⟩ {} "u1" 0
    { github_token := some ("g"), expiry_time := some 100, refresh_token := some ("r") }
    100 (by decide) (by decide) (by decide)).1 (by decide)

/-- C5: whenever SecretStore.refresh_user_tokens succeeds, the tokens handed
back carry an expiry timestamp no earlier than the current time. -/
theorem C5_refreshed_tokens_not_expired (st : SecretStoreState) (net : SecretNetEnv)
    (uid : String) (now : Nat) (r : UserTokens) (st1 : SecretStoreState)
    (h : SecretStore.refresh_user_tokens st net uid now = (some r, st1)) :
    ∃ e, r.expiry_time = some e ∧ now ≤ e := by
  unfold SecretStore.refresh_user_tokens at h
  cases hg : SecretStore.get_user_tokens st net uid with
  | none => rw [hg] at h; simp at h
  | some cur =>
    rw [hg] at h
    by_cases ht : pyTruthy cur.refresh_token = true
    · cases hp : net.put_ok with
      | false => simp [ht, SecretStore.store_user_tokens, hp] at h
      | true =>
        simp only [ht, SecretStore.store_user_tokens, hp, if_true,
          Prod.mk.injEq, Option.some.injEq] at h
        obtain ⟨hr, -⟩ := h
        refine ⟨now + 24 * 3600, ?_, Nat.le_add_right now (24 * 3600)⟩
        rw [← hr]
    · simp [ht] at h

/-- C5 witness: a successful refresh at time 0 yields tokens expiring at
86400, not earlier than 0. -/
theorem C5_refreshed_tokens_not_expired_witness :
    ∃ e, ({ github_token := some ("ghp_refreshed_u1_0"), expiry_time := some 86400,
            refresh_token := some ("refresh_new_u1_0") } : UserTokens).expiry_time = some e
      ∧ 0 ≤ e :=
  C5_refreshed_tokens_not_expired
    ⟨[("u1", { github_token := some ("g"), expiry_time := some 100,
               refresh_token := some ("r") })]⟩
    { put_ok := true } "u1" 0
    { github_token := some ("ghp_refreshed_u1_0"), expiry_time := some 86400,
      refresh_token := some ("refresh_new_u1_0") }
    ⟨[("u1", { github_token := some ("ghp_refreshed_u1_0"), expiry_time := some 86400,
               refresh_token := some ("refresh_new_u1_0") })]⟩
    (by decide)

/-- C6: evaluation of the code on a validated user with no stored tokens.
The secret resolver in src/auth.py returns the absent value softly and
get_current_user still succeeds with an empty github_token, as the claim
says; but authenticate in src/auth_handler.py, which the claim also covers,
reaches the user-object literal and dies with AttributeError on
user_tokens.jira_token (UserTokens defines no such field), so no identity
with empty service-token fields is ever returned there. -/
theorem C6_code_evaluation :
    get_user_github_token { vault_status := 404 } "user_999" = none
    ∧ get_current_user { user_id := "user_999", secrets := { vault_status := 404 } }
        (some ("Bearer tok123")) =
        .ok { identity := "user_999", is_authenticated := true, email := none,
              role := "user", github_token := none }
    ∧ authenticate {} {} { key_valid := true, whoami := some { user_id := "user_999" } }
        [("x-api-key", "lsv2_key")] =
        .error (.attributeError ("jira_token")) :=
  ⟨rfl, rfl, rfl⟩

/-- C1: every request carrying no credential or an invalid credential makes
both credential validators fail with a 401 error carrying a detail string,
so no identity object is returned: get_current_user in src/auth.py errors
for an absent, malformed, or rejected authorization header, and authenticate
in src/auth_handler.py errors for a missing, empty, or invalid x-api-key. -/
theorem C1_invalid_credentials_unauthorized :
    (∀ (env : SupabaseEnv) (a : Option String),
      supabase_invalid_credential env a →
      ∃ d, get_current_user env a = .error ⟨401, d⟩)
    ∧ (∀ (st : SecretStoreState) (net : SecretNetEnv) (env : LangSmithEnv)
        (headers : List (String × String)),
      pyTruthy (headers.lookup ("x-api-key")) = false ∨ env.key_valid = false →
      ∃ d, authenticate st net env headers = .error (.http ⟨401, d⟩)) := by
  constructor
  · intro env a h
    cases a with
    | none => exact ⟨"Missing authorization header", rfl⟩
    | some s =>
      cases hps : pySplit s with
      | nil =>
        exact ⟨"Invalid authorization header format", by simp [get_current_user, hps]⟩
      | cons x xs =>
        cases xs with
        | nil =>
          exact ⟨"Invalid authorization header format", by simp [get_current_user, hps]⟩
        | cons y ys =>
          cases ys with
          | cons z zs =>
            exact ⟨"Invalid authorization header format", by simp [get_current_user, hps]⟩
          | nil =>
            by_cases hb : pyLower x = "bearer"
            · by_cases he : env.http_error = true
              · exact ⟨"Token validation failed: " ++ env.http_error_msg,
                  by simp [get_current_user, hps, hb, he]⟩
              · by_cases hst : env.auth_status = 200
                · exfalso
                  rcases h with h | ⟨s2, hs2, hm⟩ | h | h
                  · cases h
                  · obtain rfl : s2 = s := by injection hs2 with h2; exact h2.symm
                    rw [hps] at hm
                    exact hm hb
                  · exact he h
                  · exact h hst
                · exact ⟨"Invalid token", by simp [get_current_user, hps, hb, he, hst]⟩
            · exact ⟨"Invalid authorization header format",
                by simp [get_current_user, hps, hb]⟩
  · intro st net env headers h
    by_cases hk : pyTruthy (headers.lookup ("x-api-key")) = false
    · exact ⟨"Missing x-api-key header", by simp [authenticate, hk]⟩
    · have hk2 : pyTruthy (headers.lookup ("x-api-key")) = true := by
        cases hx : pyTruthy (headers.lookup ("x-api-key"))
        · exact absurd hx hk
        · rfl
      have hv : env.key_valid = false := by
        rcases h with h | h
        · exact absurd h hk
        · exact h
      exact ⟨"Invalid API key", by simp [authenticate, hk2, hv]⟩

/-- C1 witness: a request with no authorization header and a request with no
x-api-key header are both rejected with a 401 error. -/
theorem C1_invalid_credentials_unauthorized_witness :
    (∃ d, get_current_user {} none = .error ⟨401, d⟩)
    ∧ ∃ d, authenticate {} {} {} [] = .error (.http ⟨401, d⟩) :=
  ⟨C1_invalid_credentials_unauthorized.1 {} none (Or.inl rfl),
   C1_invalid_credentials_unauthorized.2 {} {} {} [] (Or.inl rfl)⟩

theorem validate_true_config (u : AuthUser) (s : String)
    (h : validate_user_permissions u s = true) :
    ∃ cfg, AuthenticatedMCPClient.get_server_config u s = some cfg := by
  by_cases h1 : s = "github"
  · subst h1; exact ⟨_, rfl⟩
  · by_cases h2 : s = "jira"
    · subst h2; exact ⟨_, rfl⟩
    · by_cases h3 : s = "slack"
      · subst h3; exact ⟨_, rfl⟩
      · by_cases h4 : s = "confluence"
        · subst h4; exact ⟨_, rfl⟩
        · exfalso
          have b1 : (s == "github") = false := by simp [h1]
          have b2 : (s == "jira") = false := by simp [h2]
          have b3 : (s == "slack") = false := by simp [h3]
          have b4 : (s == "confluence") = false := by simp [h4]
          simp [validate_user_permissions, service_token_map, List.lookup,
            b1, b2, b3, b4] at h

/-- C2 (amended): for every authenticated user and every non-empty requested
list of services, the Permission Gate fails with a missing-access error
listing exactly the services for which the user has no token, and succeeds
otherwise; the empty request list instead raises the
no-valid-server-configurations error. -/
theorem C2_permission_gate (cs : ClientState) (user : AuthUser)
    (services : List String) (hne : services ≠ []) :
    (∀ m, services.filter (fun s => !(validate_user_permissions user s)) = m →
      m ≠ [] →
      AuthenticatedMCPClient.get_client cs user services = .error (.missing_access m))
    ∧ (services.filter (fun s => !(validate_user_permissions user s)) = [] →
      ∃ c cs2, AuthenticatedMCPClient.get_client cs user services = .ok (c, cs2)) := by
  constructor
  · intro m hm hmne
    simp only [AuthenticatedMCPClient.get_client, hm]
    rw [if_pos hmne]
  · intro hm
    have hall : ∀ s ∈ services, validate_user_permissions user s = true := by
      intro s hs
      by_cases hv : validate_user_permissions user s = true
      · exact hv
      · exfalso
        have hmem : s ∈ services.filter (fun s => !(validate_user_permissions user s)) := by
          rw [List.mem_filter]
          exact ⟨hs, by simp [hv]⟩
        rw [hm] at hmem
        cases hmem
    obtain ⟨s0, hs0⟩ : ∃ s0, s0 ∈ services := by
      cases services with
      | nil => exact absurd rfl hne
      | cons a l => exact ⟨a, List.mem_cons_self a l⟩
    obtain ⟨cfg0, hcfg0⟩ := validate_true_config user s0 (hall s0 hs0)
    have hservers : (s0, cfg0) ∈ services.filterMap
        (fun s => (AuthenticatedMCPClient.get_server_config user s).map (fun cfg => (s, cfg))) := by
      rw [List.mem_filterMap]
      exact ⟨s0, hs0, by rw [hcfg0]; rfl⟩
    have hsne : services.filterMap
        (fun s => (AuthenticatedMCPClient.get_server_config user s).map (fun cfg => (s, cfg))) ≠ [] := by
      intro hcon
      rw [hcon] at hservers
      cases hservers
    simp only [AuthenticatedMCPClient.get_client, hm]
    rw [if_neg (by simp), if_neg hsne]
    cases hlook : cs.clients.lookup (cache_key services) with
    | some client => exact ⟨client, cs, rfl⟩
    | none => exact ⟨_, _, rfl⟩

/-- C2 counterexample: for the empty requested list no service is missing,
yet get_client raises the no-valid-server-configurations ValueError instead
of succeeding, so the claim as stated fails on the empty list. -/
theorem C2_counterexample_empty_request :
    ([] : List String).filter
      (fun s => !(validate_user_permissions { github_token := some ("ghp_demo") } s)) = []
    ∧ AuthenticatedMCPClient.get_client {} { github_token := some ("ghp_demo") } [] =
        .error (.no_valid_configs []) :=
  ⟨rfl, rfl⟩

/-- C2 witness: the identity holding only a github token that requests
github and jira fails with a missing-access error naming exactly jira. -/
theorem C2_permission_gate_witness :
    AuthenticatedMCPClient.get_client {} { github_token := some ("ghp_demo_token_123") }
      ["github", "jira"] = .error (.missing_access ["jira"]) :=
  (C2_permission_gate {} { github_token := some ("ghp_demo_token_123") }
    ["github", "jira"] (by simp)).1 ["jira"] (by rfl) (by simp)

/-- C7: the client cache is keyed by the sorted requested services: when two
requested lists are permutations of each other and the first call succeeds,
both compute the same cache key and the second call returns the client
cached by the first, leaving the state unchanged. -/
theorem C7_client_cache_permutation (cs cs2 : ClientState) (user : AuthUser)
    (l1 l2 : List String) (c : MultiServerMCPClient)
    (hperm : l1.Perm l2)
    (h1 : AuthenticatedMCPClient.get_client cs user l1 = .ok (c, cs2)) :
    cache_key l1 = cache_key l2
    ∧ AuthenticatedMCPClient.get_client cs2 user l2 = .ok (c, cs2) := by
  have hkey : cache_key l1 = cache_key l2 := by
    unfold cache_key
    rw [pySorted_perm_eq hperm]
  refine ⟨hkey, ?_⟩
  by_cases hm1 : l1.filter (fun s => !(validate_user_permissions user s)) = []
  · have hm2 : l2.filter (fun s => !(validate_user_permissions user s)) = [] := by
      have hp := hperm.filter (fun s => !(validate_user_permissions user s))
      rw [hm1] at hp
      exact (hp.symm).eq_nil
    by_cases hs1 : l1.filterMap
        (fun s => (AuthenticatedMCPClient.get_server_config user s).map (fun cfg => (s, cfg))) = []
    · exfalso
      simp only [AuthenticatedMCPClient.get_client, hm1, hs1] at h1
      simp at h1
    · have hs2 : l2.filterMap
          (fun s => (AuthenticatedMCPClient.get_server_config user s).map (fun cfg => (s, cfg))) ≠ [] := by
        intro hcon
        have hp := hperm.filterMap
          (fun s => (AuthenticatedMCPClient.get_server_config user s).map (fun cfg => (s, cfg)))
        rw [hcon] at hp
        exact hs1 hp.eq_nil
      simp only [AuthenticatedMCPClient.get_client, hm1] at h1
      rw [if_neg (by simp), if_neg hs1] at h1
      simp only [AuthenticatedMCPClient.get_client, hm2]
      rw [if_neg (by simp), if_neg hs2, ← hkey]
      cases hlook : cs.clients.lookup (cache_key l1) with
      | some client =>
        rw [hlook] at h1
        simp only [Except.ok.injEq, Prod.mk.injEq] at h1
        obtain ⟨hc, hcs⟩ := h1
        subst hc
        subst hcs
        rw [hlook]
      | none =>
        rw [hlook] at h1
        simp only [Except.ok.injEq, Prod.mk.injEq] at h1
        obtain ⟨hc, hcs⟩ := h1
        rw [← hcs]
        simp only [List.lookup, ← hc, beq_self_eq_true]
  · exfalso
    simp only [AuthenticatedMCPClient.get_client] at h1
    rw [if_pos hm1] at h1
    cases h1

/-- C7 witness: with a github and a jira token, requesting github-jira and
then jira-github computes the same cache key, and the second call returns
the cached client unchanged. -/
theorem C7_client_cache_permutation_witness :
    cache_key ["github", "jira"] = cache_key ["jira", "github"]
    ∧ AuthenticatedMCPClient.get_client
        { clients := [("github|jira",
            { cid := 0
              servers := [("github",
                { transport := "streamable_http"
                  url := "https://github-mcp-server.example.com/mcp"
                  headers := [("Authorization", "Bearer ghp_1"),
                              ("User-Agent", "LangGraph-MCP-Client/1.0"),
                              ("X-User-ID", "unknown")] }),
               ("jira",
                { transport := "streamable_http"
                  url := "https://jira-mcp-server.example.com/mcp"
                  headers := [("Authorization", "Bearer jra_1"),
                              ("Content-Type", "application/json"),
                              ("X-User-ID", "unknown"),
                              ("X-Org-ID", "unknown")] })] })]
          next_cid := 1 }
        { github_token := some ("ghp_1"), jira_token := some ("jra_1") }
        ["jira", "github"] =
      .ok ({ cid := 0
             servers := [("github",
               { transport := "streamable_http"
                 url := "https://github-mcp-server.example.com/mcp"
                 headers := [("Authorization", "Bearer ghp_1"),
                             ("User-Agent", "LangGraph-MCP-Client/1.0"),
                             ("X-User-ID", "unknown")] }),
              ("jira",
               { transport := "streamable_http"
                 url := "https://jira-mcp-server.example.com/mcp"
                 headers := [("Authorization", "Bearer jra_1"),
                             ("Content-Type", "application/json"),
                             ("X-User-ID", "unknown"),
                             ("X-Org-ID", "unknown")] })] },
           { clients := [("github|jira",
               { cid := 0
                 servers := [("github",
                   { transport := "streamable_http"
                     url := "https://github-mcp-server.example.com/mcp"
                     headers := [("Authorization", "Bearer ghp_1"),
                                 ("User-Agent", "LangGraph-MCP-Client/1.0"),
                                 ("X-User-ID", "unknown")] }),
                  ("jira",
                   { transport := "streamable_http"
                     url := "https://jira-mcp-server.example.com/mcp"
                     headers := [("Authorization", "Bearer jra_1"),
                                 ("Content-Type", "application/json"),
                                 ("X-User-ID", "unknown"),
                                 ("X-Org-ID", "unknown")] })] })]
             next_cid := 1 }) :=
  C7_client_cache_permutation {} _ { github_token := some ("ghp_1"), jira_token := some ("jra_1") }
    ["github", "jira"] ["jira", "github"] _ (by decide) rfl

/-- C8: validate_user_permissions returns False for every service name
outside github, jira, slack and confluence, whatever the user object holds;
consequently list_available_services always returns a subset of these four
names. -/
theorem C8_known_services_only :
    (∀ (u : AuthUser) (s : String), s ∉ (["github", "jira", "slack", "confluence"] : List String) →
      validate_user_permissions u s = false)
    ∧ ∀ (u : AuthUser) (s : String), s ∈ AuthenticatedMCPClient.list_available_services u →
      s ∈ (["github", "jira", "slack", "confluence"] : List String) := by
  constructor
  · intro u s h
    simp only [List.mem_cons, List.not_mem_nil, or_false, not_or] at h
    obtain ⟨h1, h2, h3, h4⟩ := h
    have b1 : (s == "github") = false := by simp [h1]
    have b2 : (s == "jira") = false := by simp [h2]
    have b3 : (s == "slack") = false := by simp [h3]
    have b4 : (s == "confluence") = false := by simp [h4]
    simp [validate_user_permissions, service_token_map, List.lookup, b1, b2, b3, b4]
  · intro u s h
    exact List.mem_of_mem_filter h

/-- C8 witness: an unknown service name is refused even for a fully equipped
user, and a service listed as available is one of the four known names. -/
theorem C8_known_services_only_witness :
    validate_user_permissions
      { github_token := some ("g"), jira_token := some ("j"),
        slack_token := some ("s"), confluence_token := some ("c") } "dropbox" = false
    ∧ "github" ∈ (["github", "jira", "slack", "confluence"] : List String) :=
  ⟨C8_known_services_only.1
      { github_token := some ("g"), jira_token := some ("j"),
        slack_token := some ("s"), confluence_token := some ("c") } "dropbox" (by decide),
   C8_known_services_only.2 { github_token := some ("g") } "github" (by decide)⟩
